import Mathlib

/-!
Verification of the generation-and-resilience engine in
`app/services/ai_client.py` and the schema registry in
`app/models/structured_outputs.py`.

Payloads are modelled as JSON-like objects (association lists of field
name to value); pydantic validation of a model instance is modelled as
presence of every required field, plus the explicit length bound that
`ActionPlan` places on its `items` list.  Each definition below names
the source function it embeds.
-/

/-- JSON-like values: the payload shapes the engine produces. -/
inductive JValue where
  | s : String → JValue
  | n : Int → JValue
  | arr : List JValue → JValue
  | obj : List (String × JValue) → JValue

/-- A structured payload: a JSON object, as the field list of a pydantic
model instance. -/
abbrev Payload := List (String × JValue)

/-- The schema registry: the structured output models declared in
`app/models/structured_outputs.py`. -/
inductive SchemaId where
  | careerExplanation
  | studyPathRecommendation
  | skillRecommendation
  | careerTrajectory
  | personalizedSummary
  | confidenceExplanation
  | careerInsights
  | structuredReportOutput
  | simpleListOutput
  | keyValueOutput
  | multiKeyValueOutput
  | actionPlan
deriving DecidableEq

/-- Required fields of each registered model, in declaration order
(`structured_outputs.py`; every field is declared without a default, so
pydantic treats all of them as required). -/
def requiredFields : SchemaId → List String
  | .careerExplanation =>
      ["career_name", "explanation", "key_alignment_factors",
       "potential_challenges", "confidence_level"]
  | .studyPathRecommendation =>
      ["career_name", "immediate_steps", "medium_term_goals",
       "long_term_path", "priority_subjects"]
  | .skillRecommendation =>
      ["skill_name", "category", "importance_level",
       "development_method", "timeline"]
  | .careerTrajectory =>
      ["career_name", "immediate_focus", "educational_pathway",
       "career_progression", "key_milestones"]
  | .personalizedSummary =>
      ["student_name", "personality_analysis", "top_career_fit",
       "actionable_advice", "skills_to_develop", "motivation_message"]
  | .confidenceExplanation =>
      ["career_name", "match_score", "primary_factors",
       "strength_areas", "improvement_areas", "overall_confidence"]
  | .careerInsights =>
      ["career_name", "explanation", "study_path", "confidence"]
  | .structuredReportOutput =>
      ["personalized_summary", "career_insights", "skill_recommendations",
       "career_trajectory", "overall_assessment"]
  | .simpleListOutput => ["items"]
  | .keyValueOutput => ["key", "value"]
  | .multiKeyValueOutput => ["pairs"]
  | .actionPlan => ["items"]

/-- Dictionary lookup, as python's `dict.get(key)` (JSON object keys are
unique, so the first hit is the value). -/
def jsonGet (p : Payload) (k : String) : Option JValue :=
  (p.find? (fun kv => kv.1 == k)).map (fun kv => kv.2)

/-- `dict.get(key, default)`. -/
def jsonGetD (p : Payload) (k : String) (d : JValue) : JValue :=
  (jsonGet p k).getD d

/-- Payload `p` has field `k`. -/
def hasKey (p : Payload) (k : String) : Bool :=
  p.any (fun kv => kv.1 == k)

/-- An `ActionPlanItem` (`structured_outputs.py` line 84): an object with
required fields `title`, `description`, `timeline`. -/
def actionItemValid : JValue → Bool
  | .obj fields =>
      (["title", "description", "timeline"]).all
        (fun k => fields.any (fun kv => kv.1 == k))
  | _ => false

/-- Model-specific value constraints beyond field presence.  The only one
declared in the registry is `ActionPlan.items`, constrained to
`min_length=5, max_length=5` with `ActionPlanItem` elements
(`structured_outputs.py` lines 90-92). -/
def schemaConstraint (sid : SchemaId) (p : Payload) : Bool :=
  match sid with
  | .actionPlan =>
      match jsonGet p "items" with
      | some (.arr items) => items.length == 5 && items.all actionItemValid
      | _ => false
  | _ => true

/-- Pydantic validation of payload `p` against schema `sid`: every
required field present and the declared value constraints hold. -/
def validatesAgainst (p : Payload) (sid : SchemaId) : Bool :=
  (requiredFields sid).all (hasKey p) && schemaConstraint sid p

/-- Pydantic instantiation with no arguments (`response_model()`,
`ai_client.py` lines 1442 and 1446): succeeds with an empty payload only
when the model has no required field, and otherwise raises a
`ValidationError` (modelled as `none`). -/
def instantiateEmptyModel (sid : SchemaId) : Option Payload :=
  if requiredFields sid = [] then some [] else none

/-! ### Python string helpers

`_get_fallback_structured_content` lowercases the failed prompt, tests
substring containment, and runs `re.search(r'grade\s+(\d+)', ...)` on it
(`ai_client.py` lines 1411-1418); `_get_fallback_content` branches on
keyword containment (lines 1305-1314). -/

/-- ASCII lowering of one character, as python `str.lower()` acts on the
ASCII range (the prompts involved are ASCII). -/
def lowerChar (c : Char) : Char :=
  if 'A' ≤ c ∧ c ≤ 'Z' then Char.ofNat (c.toNat + 32) else c

/-- `str.lower()` over the character list of a string. -/
def lowerStr (s : String) : List Char :=
  s.toList.map lowerChar

/-- Does the list start with the given pattern? -/
def startsWithChars : List Char → List Char → Bool
  | _, [] => true
  | [], _ :: _ => false
  | a :: as, b :: bs => a == b && startsWithChars as bs

/-- Python `pattern in text` substring containment. -/
def containsChars : List Char → List Char → Bool
  | [], pat => startsWithChars [] pat
  | s@(_ :: rest), pat => startsWithChars s pat || containsChars rest pat

/-- Python regex `\s` on the characters these prompts contain. -/
def isWsChar (c : Char) : Bool :=
  c == ' ' || c == '\t' || c == '\n' || c == '\r'

/-- Digit-string to number, as python `int()` on the matched digits. -/
def digitsToNat (ds : List Char) : Nat :=
  ds.foldl (fun acc c => acc * 10 + (c.toNat - '0'.toNat)) 0

/-- Match `\s+(\d+)` at this position: one-or-more whitespace characters
then a maximal nonempty digit run. -/
def matchWsDigits (l : List Char) : Option Nat :=
  match l with
  | [] => none
  | c :: _ =>
      if isWsChar c then
        let afterWs := l.dropWhile isWsChar
        let digits := afterWs.takeWhile Char.isDigit
        if digits.isEmpty then none else some (digitsToNat digits)
      else none

/-- `re.search(r'grade\s+(\d+)', text)`: leftmost occurrence of the
literal `grade` followed by whitespace and digits. -/
def searchGrade : List Char → Option Nat
  | [] => none
  | c :: rest =>
      if startsWithChars (c :: rest) ("grade".toList) then
        match matchWsDigits ((c :: rest).drop 5) with
        | some n => some n
        | none => searchGrade rest
      else searchGrade rest

/-- Grade extraction from a failed prompt (`ai_client.py` lines
1409-1418): the grade defaults to 11; when the lowered prompt contains
`grade`, `re.search(r'grade\s+(\d+)')` may override it. -/
def extractGradeFromPrompt (prompt : String) : Nat :=
  let lowered := lowerStr prompt
  if containsChars lowered ("grade".toList) then
    match searchGrade lowered with
    | some n => n
    | none => 11
  else 11

/-! ### Python value semantics used by the repair path -/

/-- Python truthiness of a JSON value. -/
def pyTruthy : JValue → Bool
  | .s str => !(str == "")
  | .n i => !(i == 0)
  | .arr l => !l.isEmpty
  | .obj l => !l.isEmpty

/-- Python `len()`: defined for strings, lists and dicts; raises
`TypeError` (modelled as `none`) on numbers. -/
def pyLen : JValue → Option Nat
  | .s str => some str.length
  | .n _ => none
  | .arr l => some l.length
  | .obj l => some l.length

/-! ### Fallback Synthesizer (`_get_fallback_structured_content`,
`ai_client.py` lines 1357-1446, and `_get_fallback_content`,
lines 1305-1314) -/

/-- Hand-authored `CareerExplanation` fallback (lines 1361-1368). -/
def fallbackCareerExplanation : Payload :=
  [("career_name", .s "Career"),
   ("explanation", .s "This career aligns well with your profile based on your interests and academic performance."),
   ("key_alignment_factors", .arr [.s "Academic performance", .s "Interest alignment", .s "Skill compatibility"]),
   ("potential_challenges", .arr [.s "Skill development", .s "Experience building"]),
   ("confidence_level", .s "Medium")]

/-- Hand-authored `StudyPathRecommendation` fallback (lines 1369-1376). -/
def fallbackStudyPath : Payload :=
  [("career_name", .s "Career"),
   ("immediate_steps", .arr [.s "Focus on core subjects", .s "Build foundational skills"]),
   ("medium_term_goals", .arr [.s "Gain practical experience", .s "Develop specialized knowledge"]),
   ("long_term_path", .arr [.s "Pursue higher education", .s "Build professional network"]),
   ("priority_subjects", .arr [.s "Mathematics", .s "Science", .s "Language Arts"])]

/-- Hand-authored `SkillRecommendation` fallback (lines 1377-1384). -/
def fallbackSkillRecommendation : Payload :=
  [("skill_name", .s "Problem Solving"),
   ("category", .s "Soft Skills"),
   ("importance_level", .s "High"),
   ("development_method", .s "Practice with real-world problems"),
   ("timeline", .s "6-12 months")]

/-- Hand-authored `PersonalizedSummary` fallback (lines 1385-1393). -/
def fallbackPersonalizedSummary : Payload :=
  [("student_name", .s "Student"),
   ("personality_analysis", .s "You show strong analytical and creative abilities."),
   ("top_career_fit", .s "Your profile aligns well with analytical and creative fields."),
   ("actionable_advice", .s "Focus on building relevant skills and gaining practical experience."),
   ("skills_to_develop", .arr [.s "Critical thinking", .s "Communication", .s "Technical skills"]),
   ("motivation_message", .s "You have great potential to succeed in your chosen field.")]

/-- Hand-authored `ConfidenceExplanation` fallback (lines 1394-1402). -/
def fallbackConfidenceExplanation : Payload :=
  [("career_name", .s "Career"),
   ("match_score", .n 75),
   ("primary_factors", .arr [.s "Academic alignment", .s "Interest match", .s "Skill compatibility"]),
   ("strength_areas", .arr [.s "Analytical thinking", .s "Problem solving"]),
   ("improvement_areas", .arr [.s "Practical experience", .s "Specialized knowledge"]),
   ("overall_confidence", .s "Good match with room for growth")]

/-- Hand-authored `SimpleListOutput` fallback (lines 1403-1406). -/
def fallbackSimpleList : Payload :=
  [("items", .arr [.s "Focus on core subjects", .s "Build practical skills", .s "Gain experience"])]

/-- Hand-authored `ActionPlan` fallback for extracted grade below 8
(lines 1420-1429). -/
def fallbackActionPlanYoung : Payload :=
  [("items", .arr
    [.obj [("title", .s "Build Foundational Skills"),
           ("description", .s "Focus on developing core skills in subjects you enjoy. Practice regularly through fun activities, games, and hands-on projects."),
           ("timeline", .s "Ongoing")],
     .obj [("title", .s "Explore Different Areas"),
           ("description", .s "Try different activities and hobbies to discover what interests you most. Join clubs, participate in school activities, and explore new subjects."),
           ("timeline", .s "This month")],
     .obj [("title", .s "Practice Through Projects"),
           ("description", .s "Engage in hands-on projects that interest you. Build things, create art, solve puzzles, or work on collaborative projects with friends."),
           ("timeline", .s "Next 2 weeks")],
     .obj [("title", .s "Develop Communication Skills"),
           ("description", .s "Practice expressing your ideas through writing, speaking, and presentations. Join debate clubs, writing groups, or drama activities."),
           ("timeline", .s "This month")],
     .obj [("title", .s "Keep Learning and Growing"),
           ("description", .s "Continue building your skills through practice and exploration. Every small step counts toward your growth and discovery."),
           ("timeline", .s "Ongoing")]])]

/-- Hand-authored `ActionPlan` fallback for extracted grade 8 and above
(lines 1430-1439). -/
def fallbackActionPlanOlder : Payload :=
  [("items", .arr
    [.obj [("title", .s "Explore Career Details"),
           ("description", .s "Research your top 3-5 career recommendations in depth. Understand daily responsibilities, growth opportunities, and industry trends."),
           ("timeline", .s "This week")],
     .obj [("title", .s "Educational Pathway Planning"),
           ("description", .s "Research educational requirements, courses, and institutions that align with your career choices. Plan your subject selection for upcoming grades."),
           ("timeline", .s "Next 2 weeks")],
     .obj [("title", .s "Professional Networking"),
           ("description", .s "Connect with professionals in your areas of interest through LinkedIn, career events, or through family connections. Conduct informational interviews."),
           ("timeline", .s "This month")],
     .obj [("title", .s "Gain Experience"),
           ("description", .s "Look for internships, job shadowing opportunities, or volunteer work in your fields of interest. Consider joining relevant clubs or competitions."),
           ("timeline", .s "Next 3 months")],
     .obj [("title", .s "Skill Development"),
           ("description", .s "Identify and develop key skills relevant to your top career choices. Take online courses, attend workshops, or start personal projects."),
           ("timeline", .s "Ongoing")]])]

/-- Fallback Synthesizer, `_get_fallback_structured_content(response_model,
prompt)` (lines 1357-1446).  The seven explicitly handled models return a
hand-authored payload; the `ActionPlan` branch first extracts a grade
number from the failed prompt and picks one of two plans; every other
model falls through to `response_model()` twice (once in the `try` body at
line 1442 and once in the `except` handler at line 1446), so the second
`ValidationError` escapes (`none`). -/
def fallbackStructuredContent (sid : SchemaId) (prompt : String) : Option Payload :=
  match sid with
  | .careerExplanation => some fallbackCareerExplanation
  | .studyPathRecommendation => some fallbackStudyPath
  | .skillRecommendation => some fallbackSkillRecommendation
  | .personalizedSummary => some fallbackPersonalizedSummary
  | .confidenceExplanation => some fallbackConfidenceExplanation
  | .simpleListOutput => some fallbackSimpleList
  | .actionPlan =>
      let grade := extractGradeFromPrompt prompt
      if grade < 8 then some fallbackActionPlanYoung
      else some fallbackActionPlanOlder
  | _ =>
      match instantiateEmptyModel sid with
      | some p => some p
      | none => instantiateEmptyModel sid

/-- Plain-text fallback, `_get_fallback_content(prompt)` (lines
1305-1314): keyed by keywords of the failed prompt. -/
def fallbackContent (prompt : String) : String :=
  let p := lowerStr prompt
  if containsChars p ("career".toList) then
    "This career aligns well with your profile based on your interests and academic performance."
  else if containsChars p ("study".toList) then
    "Focus on building relevant skills and gaining practical experience in your area of interest."
  else if containsChars p ("confidence".toList) then
    "This recommendation is based on strong alignment with your personality and academic profile."
  else
    "Based on your profile, this is a suitable career path for your interests and abilities."

/-- The models `_get_fallback_structured_content` handles explicitly
(lines 1361-1439). -/
def fallbackHandled : SchemaId → Bool
  | .careerExplanation | .studyPathRecommendation | .skillRecommendation
  | .personalizedSummary | .confidenceExplanation | .simpleListOutput
  | .actionPlan => true
  | _ => false

/-! ### Retrying Client (`generate_structured_content`, `ai_client.py`
lines 199-380; `generate_content`, lines 117-197, shares the identical
retry/backoff skeleton) -/

/-- Where a returned payload came from. -/
inductive Origin where
  | provider
  | repaired
  | fallback
deriving DecidableEq

/-- The externally distinguishable ways one provider-call attempt can end,
as classified by the `try/except` cascade of the loop body:
`success` — a validated payload is returned (native parse or JSON-mode
validation, lines 284-285 and 319-320); `rateLimit` — `RateLimitError`
or an exception whose text carries `429`/`rate limit`/`too many requests`
(lines 351-374); `terminalFinish` — refusal, `length` or
`content_filter` finish reason (lines 269-281); `parseFailRepairOk` —
JSON-mode validation failed and the repair heuristic recovered a payload
(lines 325-345); `parseFailRepairFail` — validation failed, repair
failed, and the re-raised parse error lands in the generic handler
(lines 349, 362-377); `otherError` — any other exception (lines
375-377). -/
inductive AttemptOutcome where
  | success
  | rateLimit
  | terminalFinish
  | parseFailRepairOk
  | parseFailRepairFail
  | otherError
deriving DecidableEq

/-- Observable outcome of one Retrying Client invocation: the origin of
the returned result, the number of provider-call attempts made, and the
backoff delays slept, in order. -/
structure RunResult where
  origin : Origin
  attempts : Nat
  sleeps : List Nat
deriving DecidableEq

/-- The retry loop `for attempt in range(max_retries)` (lines 223-380).
`fuel` counts the loop iterations left, `attempt` is the 0-based loop
variable, `sleeps` accumulates `time.sleep` delays.  A rate-limit outcome
sleeps `base_delay * 2 ** attempt` and continues only while
`attempt < max_retries - 1` (lines 352-360); refusal/truncation/filter
returns the fallback inside the same iteration (lines 269-281), as do a
failed repair and any other exception (lines 362-377).  The fuel-exhausted
case is the post-loop fallback at line 380. -/
def runLoop (o : Nat → AttemptOutcome) (maxRetries baseDelay : Nat) :
    Nat → Nat → List Nat → RunResult
  | 0, attempt, sleeps => ⟨.fallback, attempt, sleeps⟩
  | fuel + 1, attempt, sleeps =>
      match o attempt with
      | .success => ⟨.provider, attempt + 1, sleeps⟩
      | .parseFailRepairOk => ⟨.repaired, attempt + 1, sleeps⟩
      | .terminalFinish => ⟨.fallback, attempt + 1, sleeps⟩
      | .parseFailRepairFail => ⟨.fallback, attempt + 1, sleeps⟩
      | .otherError => ⟨.fallback, attempt + 1, sleeps⟩
      | .rateLimit =>
          if attempt < maxRetries - 1 then
            runLoop o maxRetries baseDelay fuel (attempt + 1)
              (sleeps ++ [baseDelay * 2 ^ attempt])
          else ⟨.fallback, attempt + 1, sleeps⟩

/-- One `generate_structured_content` invocation with the configured
constants `max_retries = 3`, `base_delay = 5` (lines 220-221), driven by
the outcome of each attempt. -/
def generateStructuredRun (o : Nat → AttemptOutcome) : RunResult :=
  runLoop o 3 5 3 0 []

/-! ### Response Normalizer repair path (`generate_structured_content`,
groq branch, lines 317-349) -/

/-- The `or`-chain over alternate keys (lines 330-336): first truthy
value among the probed keys of the parsed object. -/
def firstTruthyGet (jd : Payload) : List String → Option JValue
  | [] => none
  | k :: ks =>
      match jsonGet jd k with
      | some v => if pyTruthy v then some v else firstTruthyGet jd ks
      | none => firstTruthyGet jd ks

mutual

/-- Python `repr` of a JSON value, for `str(json_data)` at line 335
(modelled for quote-free strings; the dict braces are written escaped). -/
def reprJValue : JValue → String
  | .s str => "'" ++ str ++ "'"
  | .n i => toString i
  | .arr l => "[" ++ String.intercalate ", " (reprJList l) ++ "]"
  | .obj l => "\x7b" ++ String.intercalate ", " (reprJObj l) ++ "\x7d"

def reprJList : List JValue → List String
  | [] => []
  | v :: vs => reprJValue v :: reprJList vs

def reprJObj : List (String × JValue) → List String
  | [] => []
  | (k, v) :: kvs => ("'" ++ k ++ "': " ++ reprJValue v) :: reprJObj kvs

end

/-- `explanation_text` (lines 330-336): `json_data.get("explanation") or
json_data.get("career_match_explanation") or
json_data.get("detailed_explanation") or json_data.get("analysis") or
str(json_data)`. -/
def explanationText (jd : Payload) : JValue :=
  match firstTruthyGet jd
      ["explanation", "career_match_explanation",
       "detailed_explanation", "analysis"] with
  | some v => v
  | none => .s (reprJValue (.obj jd))

/-- Pydantic type check for a `str` field: accepts strings only (pydantic
v2 does not coerce numbers or containers into `str`). -/
def isStr : JValue → Bool
  | .s _ => true
  | _ => false

/-- Pydantic type check for a `List[str]` field. -/
def isStrList : JValue → Bool
  | .arr l => l.all isStr
  | _ => false

/-- Default for `key_alignment_factors` in the repair constructor call
(`ai_client.py` line 342). -/
def defaultAlignmentFactors : JValue :=
  .arr [.s "Strong profile match", .s "Academic alignment", .s "Interest compatibility"]

/-- Default for `potential_challenges` in the repair constructor call
(line 343). -/
def defaultChallenges : JValue :=
  .arr [.s "Skill development", .s "Experience building"]

/-- The `CareerExplanation` repair (lines 325-349): when
`explanation_text` is truthy and `len(explanation_text) > 50`, the code
constructs `response_model(...)` from recovered and defaulted fields
(lines 339-345); that pydantic constructor validates the field types
(`career_name`, `explanation`, `confidence_level` must be `str`,
`key_alignment_factors` and `potential_challenges` must be `List[str]`),
and a `ValidationError` is caught by the inner `except` at line 346.  In
every failing case — falsy `explanation_text`, `len` at most 50, a
`TypeError` from `len`, or a constructor `ValidationError` — the original
parse error is re-raised at line 349, modelled as `none`. -/
def repairCareerExplanation (jd : Payload) : Option Payload :=
  let et := explanationText jd
  if pyTruthy et then
    match pyLen et with
    | none => none
    | some l =>
        if 50 < l then
          let cn := jsonGetD jd "career_name" (.s "Career")
          let kaf := jsonGetD jd "key_alignment_factors" defaultAlignmentFactors
          let pc := jsonGetD jd "potential_challenges" defaultChallenges
          let cl := jsonGetD jd "confidence_level" (.s "Medium")
          if isStr cn && isStr et && isStrList kaf && isStrList pc && isStr cl then
            some [("career_name", cn),
                  ("explanation", et),
                  ("key_alignment_factors", kaf),
                  ("potential_challenges", pc),
                  ("confidence_level", cl)]
          else none
        else none
  else none

/-- The repair is attempted only when the requested model is
`CareerExplanation` (`response_model.__name__` test, line 325); for every
other schema a JSON-mode validation failure re-raises at once. -/
def attemptRepair (sid : SchemaId) (jd : Payload) : Option Payload :=
  match sid with
  | .careerExplanation => repairCareerExplanation jd
  | _ => none

/-! ### Fan-Out Orchestrator (`generate_detailed_skill_recommendations`,
`ai_client.py` lines 572-582) -/

/-- The worker pool fragment: the first 8 inputs are submitted to a
`ThreadPoolExecutor(max_workers=8)` (line 574-575), results are collected
with `as_completed` — i.e. appended in completion order, here given by
`order`, a permutation of the indices of the submitted futures — and the
collected list is truncated to 8 (line 582).  Each worker applies `f`
(`generate_skill_explanation`, which absorbs its own exceptions and
always returns). -/
def runAll {α β : Type} (f : α → β) (xs : List α) (order : List Nat) : List β :=
  ((order.filterMap (fun i => ((xs.take 8).get? i).map f)).take 8)

/-! ### `generate_structured_skill_recommendations` (lines 1033-1149) -/

/-- `generate_structured_skill_recommendations(profile_data,
career_matches)`: the guard at lines 1039-1040 returns `[]` before any
prompt is built.  `rest` abstracts lines 1042-1149, which build a
grade-dependent prompt and make exactly one `generate_structured_content`
call (line 1113) before converting its items; the second component counts
the `generate_structured_content` invocations performed. -/
def generateStructuredSkillRecommendations {μ σ : Type} (careerMatches : List μ)
    (rest : Unit → List σ) : List σ × Nat :=
  if careerMatches.isEmpty then ([], 0)
  else (rest (), 1)

/-! ### Prompt Context Builder (`_get_career_counselor_system_prompt`,
`ai_client.py` lines 49-115) -/

/-- The three fixed tone policies. -/
inductive ToneTier where
  | simpleExploratory
  | balancedSupportive
  | directMature
deriving DecidableEq

/-- Tier selection (lines 63-71): `grade < 8`, `grade <= 10`, else. -/
def toneTierOfGrade (grade : Int) : ToneTier :=
  if grade < 8 then .simpleExploratory
  else if grade ≤ 10 then .balancedSupportive
  else .directMature

/-- The tone guidance text of each tier (lines 64, 67, 70). -/
def toneGuidance : ToneTier → String
  | .simpleExploratory =>
      "- Simple, warm, and exploratory. Short sentences. Focus on curiosity, not decisions. Avoid jargon."
  | .balancedSupportive =>
      "- Clear, engaging, and supportive. Balance encouragement with realism. Use relatable examples."
  | .directMature =>
      "- Mature, direct, and insightful. Empathetic toward academic pressure. Deliver actionable advice."

/-- The grade context line of each tier (lines 65, 68, 71). -/
def gradeContext (grade : Int) : String :=
  match toneTierOfGrade grade with
  | .simpleExploratory => "Grade Level: " ++ toString grade ++ " (Primary/Middle School)"
  | .balancedSupportive => "Grade Level: " ++ toString grade ++ " (High School - Early Stage)"
  | .directMature => "Grade Level: " ++ toString grade ++ " (High School - Advanced Stage)"

/-- `profile_data.get('grade', 0) if profile_data else 0` (line 59). -/
def gradeOfProfile (profileGrade : Option (Option Int)) : Int :=
  match profileGrade with
  | none => 0
  | some g => g.getD 0

/-- The tone tier the system prompt embeds for a given (possibly absent)
profile. -/
def systemPromptTone (profileGrade : Option (Option Int)) : ToneTier :=
  toneTierOfGrade (gradeOfProfile profileGrade)

/-- Probe into an `ActionPlan` payload: the title of its first item. -/
def probeFirstTitle (r : Option Payload) : Option String :=
  match r with
  | some (("items", .arr (.obj (("title", .s t) :: _) :: _)) :: _) => some t
  | _ => none

/-! ## Helper lemmas -/

/-- The retry loop never makes more provider-call attempts than it has
loop iterations left. -/
theorem runLoop_attempts_le (o : Nat → AttemptOutcome) (fuel : Nat) :
    ∀ attempt sleeps,
      (runLoop o 3 5 fuel attempt sleeps).attempts ≤ attempt + fuel := by
  induction fuel with
  | zero => intro a s; simp [runLoop]
  | succ n ih =>
      intro a s
      cases h : o a with
      | rateLimit =>
          simp only [runLoop, h]
          by_cases hc : a < 3 - 1
          · rw [if_pos hc]
            exact (ih (a + 1) _).trans (by omega)
          · rw [if_neg hc]
            show a + 1 ≤ a + (n + 1)
            omega
      | success => simp only [runLoop, h]; show a + 1 ≤ a + (n + 1); omega
      | parseFailRepairOk => simp only [runLoop, h]; show a + 1 ≤ a + (n + 1); omega
      | terminalFinish => simp only [runLoop, h]; show a + 1 ≤ a + (n + 1); omega
      | parseFailRepairFail => simp only [runLoop, h]; show a + 1 ≤ a + (n + 1); omega
      | otherError => simp only [runLoop, h]; show a + 1 ≤ a + (n + 1); omega

/-- Collecting `l.get?` over the index range of `l` reproduces `l`. -/
theorem filterMap_get_range {β : Type} (l : List β) :
    (List.range l.length).filterMap (fun i => l.get? i) = l := by
  induction l with
  | nil => rfl
  | cons a t ih =>
      rw [List.length_cons, List.range_succ_eq_map]
      simp only [List.filterMap_cons, List.get?_cons_zero, List.filterMap_map,
        Function.comp_def, List.get?_cons_succ]
      rw [ih]

/-! ## Claim theorems -/

/-- C1, counterexample: for the registered schema `KeyValueOutput` (which
has the required fields `key` and `value` and is not one of the models
`_get_fallback_structured_content` handles), the fallback path ends in
`response_model()` whose `ValidationError` escapes (`none`): the Fallback
Synthesizer does not return a schema-valid payload for every registered
schema, and the enclosing generation operation propagates the exception. -/
theorem fallback_keyvalue_raises_counterexample :
    fallbackStructuredContent SchemaId.keyValueOutput "career prompt" = none := rfl

/-- C1, amended: for each of the seven schema types the Fallback
Synthesizer handles explicitly (CareerExplanation, StudyPathRecommendation,
SkillRecommendation, PersonalizedSummary, ConfidenceExplanation,
SimpleListOutput, ActionPlan), and for every prompt, the synthesized
payload exists and validates against the schema with all required fields
present. -/
theorem fallback_valid_for_handled_schemas (sid : SchemaId) (prompt : String)
    (h : fallbackHandled sid = true) :
    ∃ p, fallbackStructuredContent sid prompt = some p ∧
      validatesAgainst p sid = true := by
  cases sid with
  | careerExplanation => exact ⟨_, rfl, by decide⟩
  | studyPathRecommendation => exact ⟨_, rfl, by decide⟩
  | skillRecommendation => exact ⟨_, rfl, by decide⟩
  | personalizedSummary => exact ⟨_, rfl, by decide⟩
  | confidenceExplanation => exact ⟨_, rfl, by decide⟩
  | simpleListOutput => exact ⟨_, rfl, by decide⟩
  | actionPlan =>
      by_cases hg : extractGradeFromPrompt prompt < 8
      · refine ⟨fallbackActionPlanYoung, ?_, by decide⟩
        show (if extractGradeFromPrompt prompt < 8 then some fallbackActionPlanYoung
          else some fallbackActionPlanOlder) = some fallbackActionPlanYoung
        rw [if_pos hg]
      · refine ⟨fallbackActionPlanOlder, ?_, by decide⟩
        show (if extractGradeFromPrompt prompt < 8 then some fallbackActionPlanYoung
          else some fallbackActionPlanOlder) = some fallbackActionPlanOlder
        rw [if_neg hg]
  | careerTrajectory => simp [fallbackHandled] at h
  | careerInsights => simp [fallbackHandled] at h
  | structuredReportOutput => simp [fallbackHandled] at h
  | keyValueOutput => simp [fallbackHandled] at h
  | multiKeyValueOutput => simp [fallbackHandled] at h

/-- C1, witness: the amended theorem applied to the `ActionPlan` schema
and a concrete prompt. -/
theorem fallback_valid_for_handled_schemas_witness :
    fallbackHandled SchemaId.actionPlan = true ∧
    ∃ p, fallbackStructuredContent SchemaId.actionPlan "grade 7 prompt" = some p ∧
      validatesAgainst p SchemaId.actionPlan = true :=
  ⟨by decide,
   fallback_valid_for_handled_schemas SchemaId.actionPlan "grade 7 prompt" (by decide)⟩

/-- C2, counterexample: when every attempt fails transiently, the
observed backoff delays are 5 and 10 only — never 5, 10, 20 as the claim
states, because the third rate-limit failure returns the fallback without
sleeping (`attempt < max_retries - 1` fails at `attempt = 2`). -/
theorem retry_delays_counterexample :
    (generateStructuredRun (fun _ => AttemptOutcome.rateLimit)).sleeps = [5, 10] ∧
    (generateStructuredRun (fun _ => AttemptOutcome.rateLimit)).sleeps ≠ [5, 10, 20] := by
  decide

/-- C2, amended: the Retrying Client makes at most 3 attempts, and the
sleep before retry `k` is `base_delay * 2 ** attempt_index` with base 5;
the final attempt's transient failure returns fallback without sleeping,
so for consecutive transient failures the observed delays are exactly
5, 10 over 3 attempts. -/
theorem retry_attempt_bound_and_observed_delays (o : Nat → AttemptOutcome) :
    (generateStructuredRun o).attempts ≤ 3 ∧
    ((∀ k, o k = AttemptOutcome.rateLimit) →
      (generateStructuredRun o).sleeps = [5, 10] ∧
      (generateStructuredRun o).attempts = 3) := by
  refine ⟨runLoop_attempts_le o 3 0 [], fun h => ?_⟩
  have ho : o = fun _ => AttemptOutcome.rateLimit := funext h
  subst ho
  exact ⟨by decide, by decide⟩

/-- C2, witness: the amended theorem applied to the all-transient run. -/
theorem retry_attempt_bound_and_observed_delays_witness :
    (generateStructuredRun (fun _ => AttemptOutcome.rateLimit)).attempts ≤ 3 ∧
    (generateStructuredRun (fun _ => AttemptOutcome.rateLimit)).sleeps = [5, 10] ∧
    (generateStructuredRun (fun _ => AttemptOutcome.rateLimit)).attempts = 3 :=
  ⟨(retry_attempt_bound_and_observed_delays (fun _ => AttemptOutcome.rateLimit)).1,
   (retry_attempt_bound_and_observed_delays (fun _ => AttemptOutcome.rateLimit)).2
     (fun _ => rfl)⟩

/-- C3: a first provider call that terminates with a non-retryable finish
reason (refusal, `length` truncation, or `content_filter`) returns the
fallback immediately on that attempt: origin is fallback, the attempt
count stays at 1, and no backoff sleep occurs. -/
theorem terminal_finish_short_circuits_to_fallback (o : Nat → AttemptOutcome)
    (h : o 0 = AttemptOutcome.terminalFinish) :
    generateStructuredRun o = ⟨Origin.fallback, 1, []⟩ := by
  have e : generateStructuredRun o = runLoop o 3 5 (2 + 1) 0 [] := rfl
  rw [e]
  simp only [runLoop, h]

/-- C3, witness: the theorem applied to a run whose first attempt ends
with a terminal finish reason. -/
theorem terminal_finish_short_circuits_to_fallback_witness :
    (fun _ : Nat => AttemptOutcome.terminalFinish) 0 = AttemptOutcome.terminalFinish ∧
    generateStructuredRun (fun _ => AttemptOutcome.terminalFinish) =
      ⟨Origin.fallback, 1, []⟩ :=
  ⟨rfl, terminal_finish_short_circuits_to_fallback
    (fun _ => AttemptOutcome.terminalFinish) rfl⟩

/-- C4, counterexample: a first attempt whose JSON-mode validation fails
and whose repair also fails returns the fallback on that very attempt —
attempt count 1, no backoff sleep — contradicting the claim that a
RepairFailure routes to Backoff and another attempt like a transient
error (the re-raised parse error lands in the generic `except` branch,
which returns the fallback at once). -/
theorem repair_failure_goes_to_fallback_counterexample :
    generateStructuredRun (fun _ => AttemptOutcome.parseFailRepairFail) =
      ⟨Origin.fallback, 1, []⟩ := by
  decide

/-- C4, amended: a RepairFailure is terminal — on any attempt with loop
iterations remaining, it short-circuits to the fallback within the same
iteration, with no backoff sleep and no further attempt; only transient
rate-limit errors route to backoff. -/
theorem repair_failure_short_circuits_to_fallback (o : Nat → AttemptOutcome)
    (fuel attempt : Nat) (sleeps : List Nat)
    (h : o attempt = AttemptOutcome.parseFailRepairFail) :
    runLoop o 3 5 (fuel + 1) attempt sleeps =
      ⟨Origin.fallback, attempt + 1, sleeps⟩ := by
  simp only [runLoop, h]

/-- C4, witness: the amended theorem applied to a concrete run state. -/
theorem repair_failure_short_circuits_to_fallback_witness :
    (fun _ : Nat => AttemptOutcome.parseFailRepairFail) 0 =
      AttemptOutcome.parseFailRepairFail ∧
    runLoop (fun _ => AttemptOutcome.parseFailRepairFail) 3 5 (2 + 1) 0 [] =
      ⟨Origin.fallback, 0 + 1, []⟩ :=
  ⟨rfl, repair_failure_short_circuits_to_fallback
    (fun _ => AttemptOutcome.parseFailRepairFail) 2 0 [] rfl⟩

/-- C5, counterexample: the worker-pool fragment appends results in
completion order (`as_completed`), so two legitimate completion schedules
of the same two inputs produce differently ordered outputs — the output
order is not a pure function of the input order and results are not
merged by request identity. -/
theorem fanout_order_depends_on_completion_counterexample :
    ([1, 0] : List Nat).Perm (List.range (([10, 20] : List Nat).take 8).length) ∧
    ([0, 1] : List Nat).Perm (List.range (([10, 20] : List Nat).take 8).length) ∧
    runAll (fun n : Nat => n) [10, 20] [1, 0] ≠
      runAll (fun n : Nat => n) [10, 20] [0, 1] := by
  decide

/-- C5, amended: for any completion schedule (a permutation of the
submitted indices), the pool returns exactly one result per submitted
input — the output's length equals the number of submitted inputs and its
multiset of values is exactly the image of the inputs — but the list is
in completion order, not input order. -/
theorem fanout_one_result_per_input_in_completion_order {α β : Type}
    (f : α → β) (xs : List α) (order : List Nat)
    (h : order.Perm (List.range (xs.take 8).length)) :
    (runAll f xs order).length = (xs.take 8).length ∧
    (runAll f xs order).Perm ((xs.take 8).map f) := by
  have e1 : order.filterMap (fun i => ((xs.take 8).get? i).map f)
      = order.filterMap (fun i => ((xs.take 8).map f).get? i) := by
    simp only [List.get?_map]
  have p2 : (order.filterMap (fun i => ((xs.take 8).map f).get? i)).Perm
      ((List.range (xs.take 8).length).filterMap
        (fun i => ((xs.take 8).map f).get? i)) :=
    h.filterMap _
  have e3 : (List.range (xs.take 8).length).filterMap
      (fun i => ((xs.take 8).map f).get? i) = (xs.take 8).map f := by
    rw [show (xs.take 8).length = ((xs.take 8).map f).length from
      (List.length_map _ _).symm]
    exact filterMap_get_range _
  have p3 : ((List.range (xs.take 8).length).filterMap
      (fun i => ((xs.take 8).map f).get? i)).Perm ((xs.take 8).map f) := by
    rw [e3]
  have key : (order.filterMap (fun i => ((xs.take 8).get? i).map f)).Perm
      ((xs.take 8).map f) := by
    rw [e1]
    exact p2.trans p3
  have hlen : (order.filterMap (fun i => ((xs.take 8).get? i).map f)).length
      = (xs.take 8).length := by
    rw [key.length_eq, List.length_map]
  have hle : (order.filterMap (fun i => ((xs.take 8).get? i).map f)).length ≤ 8 := by
    rw [hlen]; exact List.length_take_le 8 xs
  constructor
  · unfold runAll
    rw [List.take_of_length_le hle, hlen]
  · unfold runAll
    rw [List.take_of_length_le hle]
    exact key

/-- C5, witness: the amended theorem applied to two inputs completed in
reverse order. -/
theorem fanout_one_result_per_input_in_completion_order_witness :
    ([1, 0] : List Nat).Perm (List.range (([3, 4] : List Nat).take 8).length) ∧
    (runAll (fun n : Nat => n + 100) [3, 4] [1, 0]).length =
      (([3, 4] : List Nat).take 8).length ∧
    (runAll (fun n : Nat => n + 100) [3, 4] [1, 0]).Perm
      ((([3, 4] : List Nat).take 8).map (fun n => n + 100)) :=
  ⟨by decide,
   (fanout_one_result_per_input_in_completion_order
     (fun n : Nat => n + 100) [3, 4] [1, 0] (by decide)).1,
   (fanout_one_result_per_input_in_completion_order
     (fun n : Nat => n + 100) [3, 4] [1, 0] (by decide)).2⟩

/-- C6, counterexample: for the `ActionPlan` schema the Fallback
Synthesizer inspects the failed prompt — `re.search(r'grade\s+(\d+)')` —
so two prompts that differ only in the grade they mention yield different
fallback payloads; the synthesizer is not a function of schema identity
alone. -/
theorem fallback_depends_on_prompt_counterexample :
    probeFirstTitle (fallbackStructuredContent SchemaId.actionPlan
      "Generate exactly 5 action plan items for a grade 7 student.") =
      some "Build Foundational Skills" ∧
    probeFirstTitle (fallbackStructuredContent SchemaId.actionPlan
      "Generate exactly 5 action plan items for a grade 11 student.") =
      some "Explore Career Details" ∧
    fallbackStructuredContent SchemaId.actionPlan
      "Generate exactly 5 action plan items for a grade 7 student." ≠
    fallbackStructuredContent SchemaId.actionPlan
      "Generate exactly 5 action plan items for a grade 11 student." :=
  ⟨rfl, rfl, fun h => absurd (congrArg probeFirstTitle h) (by decide)⟩

/-- C6, amended: for every registered schema other than `ActionPlan` the
synthesized structured fallback depends on the schema identity only — any
two prompts yield the same payload; the `ActionPlan` fallback instead
branches on a grade number extracted from the failed prompt text. -/
theorem fallback_prompt_independent_except_action_plan (sid : SchemaId)
    (h : sid ≠ SchemaId.actionPlan) (p1 p2 : String) :
    fallbackStructuredContent sid p1 = fallbackStructuredContent sid p2 := by
  cases sid <;> first | rfl | exact absurd rfl h

/-- C6, witness: the amended theorem applied to the `CareerExplanation`
schema and two distinct prompts. -/
theorem fallback_prompt_independent_except_action_plan_witness :
    SchemaId.careerExplanation ≠ SchemaId.actionPlan ∧
    fallbackStructuredContent SchemaId.careerExplanation "first failed prompt" =
      fallbackStructuredContent SchemaId.careerExplanation "second failed prompt" :=
  ⟨by decide,
   fallback_prompt_independent_except_action_plan SchemaId.careerExplanation
     (by decide) "first failed prompt" "second failed prompt"⟩

/-- C7: the Prompt Context Builder selects exactly one of three fixed
tone policies by numeric threshold on the grade — below 8 the
simple/exploratory policy, 8 through 10 the balanced/supportive policy,
above 10 the direct/mature policy — for every grade value. -/
theorem tone_tier_threshold_selection (g : Int) :
    (g < 8 → toneTierOfGrade g = ToneTier.simpleExploratory) ∧
    (8 ≤ g → g ≤ 10 → toneTierOfGrade g = ToneTier.balancedSupportive) ∧
    (10 < g → toneTierOfGrade g = ToneTier.directMature) := by
  refine ⟨fun h => ?_, fun h1 h2 => ?_, fun h => ?_⟩
  · unfold toneTierOfGrade; rw [if_pos h]
  · unfold toneTierOfGrade; rw [if_neg (by omega), if_pos h2]
  · unfold toneTierOfGrade; rw [if_neg (by omega), if_neg (by omega)]

/-- C7, witness: the theorem applied at grades 5, 9 and 12, one per
tier. -/
theorem tone_tier_threshold_selection_witness :
    ((5 : Int) < 8 ∧ toneTierOfGrade 5 = ToneTier.simpleExploratory) ∧
    ((8 : Int) ≤ 9 ∧ (9 : Int) ≤ 10 ∧
      toneTierOfGrade 9 = ToneTier.balancedSupportive) ∧
    ((10 : Int) < 12 ∧ toneTierOfGrade 12 = ToneTier.directMature) :=
  ⟨⟨by decide, (tone_tier_threshold_selection 5).1 (by decide)⟩,
   ⟨by decide, by decide,
    (tone_tier_threshold_selection 9).2.1 (by decide) (by decide)⟩,
   ⟨by decide, (tone_tier_threshold_selection 12).2.2 (by decide)⟩⟩

/-- C8, counterexample: a parsed JSON-mode response that lacks the
canonical `explanation` key but carries it under
`career_match_explanation` is NOT always repaired: when the alternate
value is 50 characters or shorter, the `len(explanation_text) > 50` guard
fails and the parse error is re-raised (`none`), so the request falls to
the fallback instead of returning a repaired payload. -/
theorem repair_short_alternate_counterexample :
    jsonGet [("career_match_explanation", JValue.s "Too short.")] "explanation" = none ∧
    jsonGet [("career_match_explanation", JValue.s "Too short.")]
      "career_match_explanation" = some (JValue.s "Too short.") ∧
    attemptRepair SchemaId.careerExplanation
      [("career_match_explanation", JValue.s "Too short.")] = none :=
  ⟨rfl, rfl, rfl⟩

/-- C8, amended: for a JSON-mode `CareerExplanation` response whose
parsed object lacks the `explanation` key but holds a string value under
`career_match_explanation`, the repair recovers that value — returning a
payload that validates against `CareerExplanation` with the recovered
text as its `explanation` — provided the value is longer than 50
characters and the remaining constructor fields (recovered from the
object, or defaulted when absent) pass pydantic type validation:
`career_name` and `confidence_level` strings, `key_alignment_factors`
and `potential_challenges` lists of strings.  Otherwise the constructor
raises inside the inner `try` and the request falls to fallback. -/
theorem repair_recovers_truthy_long_alternate (jd : Payload) (v : String)
    (h1 : jsonGet jd "explanation" = none)
    (h2 : jsonGet jd "career_match_explanation" = some (JValue.s v))
    (h3 : 50 < v.length)
    (h4 : isStr (jsonGetD jd "career_name" (.s "Career")) = true)
    (h5 : isStrList (jsonGetD jd "key_alignment_factors" defaultAlignmentFactors) = true)
    (h6 : isStrList (jsonGetD jd "potential_challenges" defaultChallenges) = true)
    (h7 : isStr (jsonGetD jd "confidence_level" (.s "Medium")) = true) :
    ∃ p, attemptRepair SchemaId.careerExplanation jd = some p ∧
      jsonGet p "explanation" = some (JValue.s v) ∧
      validatesAgainst p SchemaId.careerExplanation = true := by
  have hne : v ≠ "" := by
    intro e
    rw [e] at h3
    simp at h3
  have het : explanationText jd = JValue.s v := by
    simp [explanationText, firstTruthyGet, h1, h2, pyTruthy, hne]
  have hrep : attemptRepair SchemaId.careerExplanation jd = some
      [("career_name", jsonGetD jd "career_name" (.s "Career")),
       ("explanation", JValue.s v),
       ("key_alignment_factors", jsonGetD jd "key_alignment_factors" defaultAlignmentFactors),
       ("potential_challenges", jsonGetD jd "potential_challenges" defaultChallenges),
       ("confidence_level", jsonGetD jd "confidence_level" (.s "Medium"))] := by
    unfold attemptRepair repairCareerExplanation
    rw [het]
    simp [pyTruthy, hne, pyLen, h3, h4, h5, h6, h7, isStr]
    exact ⟨h4, h7⟩
  exact ⟨_, hrep, rfl, rfl⟩

/-- C8, witness: the amended theorem applied to a concrete parsed object
whose alternate-key value is 79 characters long and whose remaining
constructor fields all take their (type-valid) defaults. -/
theorem repair_recovers_truthy_long_alternate_witness :
    jsonGet [("career_match_explanation",
      JValue.s "This student profile shows a clear and strong alignment with this career path.")]
      "explanation" = none ∧
    50 < ("This student profile shows a clear and strong alignment with this career path." : String).length ∧
    isStr (jsonGetD [("career_match_explanation",
      JValue.s "This student profile shows a clear and strong alignment with this career path.")]
      "career_name" (.s "Career")) = true ∧
    isStrList (jsonGetD [("career_match_explanation",
      JValue.s "This student profile shows a clear and strong alignment with this career path.")]
      "key_alignment_factors" defaultAlignmentFactors) = true ∧
    ∃ p, attemptRepair SchemaId.careerExplanation
      [("career_match_explanation",
        JValue.s "This student profile shows a clear and strong alignment with this career path.")] = some p ∧
      jsonGet p "explanation" = some
        (JValue.s "This student profile shows a clear and strong alignment with this career path.") ∧
      validatesAgainst p SchemaId.careerExplanation = true :=
  ⟨rfl, by decide, rfl, rfl,
   repair_recovers_truthy_long_alternate
     [("career_match_explanation",
       JValue.s "This student profile shows a clear and strong alignment with this career path.")]
     "This student profile shows a clear and strong alignment with this career path."
     rfl rfl (by decide) rfl rfl rfl rfl⟩

/-- C9: calling `generate_structured_skill_recommendations` with an empty
`career_matches` list returns the empty list immediately, making zero
`generate_structured_content` invocations — so no provider call, no
retry or backoff, and no fallback synthesis occur — whatever the rest of
the function would do. -/
theorem skill_recommendations_empty_short_circuit {μ σ : Type}
    (rest : Unit → List σ) :
    generateStructuredSkillRecommendations ([] : List μ) rest = ([], 0) := rfl

/-- C10: every `ActionPlan` payload the engine produces has exactly 5
items — any payload that validates against the `ActionPlan` schema has an
`items` list of length 5 (the registry constrains it to min and max
length 5), and for every prompt the hand-authored fallback plan (either
grade band) also has exactly 5 items. -/
theorem action_plan_payloads_have_five_items :
    (∀ p : Payload, validatesAgainst p SchemaId.actionPlan = true →
        ∃ items : List JValue, jsonGet p "items" = some (JValue.arr items) ∧
          items.length = 5) ∧
    (∀ prompt : String, ∃ p items,
        fallbackStructuredContent SchemaId.actionPlan prompt = some p ∧
        jsonGet p "items" = some (JValue.arr items) ∧ items.length = 5) := by
  constructor
  · intro p hp
    unfold validatesAgainst schemaConstraint at hp
    rw [Bool.and_eq_true] at hp
    obtain ⟨-, hp2⟩ := hp
    rcases hji : jsonGet p "items" with - | jv
    · rw [hji] at hp2; simp at hp2
    · cases jv with
      | s str => rw [hji] at hp2; simp at hp2
      | n i => rw [hji] at hp2; simp at hp2
      | obj o => rw [hji] at hp2; simp at hp2
      | arr items =>
          rw [hji] at hp2
          simp only [Bool.and_eq_true, beq_iff_eq] at hp2
          exact ⟨items, rfl, hp2.1⟩
  · intro prompt
    by_cases hg : extractGradeFromPrompt prompt < 8
    · refine ⟨fallbackActionPlanYoung, _, ?_, rfl, rfl⟩
      show (if extractGradeFromPrompt prompt < 8 then some fallbackActionPlanYoung
        else some fallbackActionPlanOlder) = some fallbackActionPlanYoung
      rw [if_pos hg]
    · refine ⟨fallbackActionPlanOlder, _, ?_, rfl, rfl⟩
      show (if extractGradeFromPrompt prompt < 8 then some fallbackActionPlanYoung
        else some fallbackActionPlanOlder) = some fallbackActionPlanOlder
      rw [if_neg hg]

/-- C10, witness: the first part applied to the younger-grade fallback
plan, which validates and indeed has 5 items. -/
theorem action_plan_payloads_have_five_items_witness :
    validatesAgainst fallbackActionPlanYoung SchemaId.actionPlan = true ∧
    ∃ items : List JValue,
      jsonGet fallbackActionPlanYoung "items" = some (JValue.arr items) ∧
      items.length = 5 :=
  ⟨by decide,
   action_plan_payloads_have_five_items.1 fallbackActionPlanYoung (by decide)⟩
